import Mathlib

/-!
Shallow embedding of the response-acquisition and resilience layer of the
tutoring chat client: `src/types.ts`, the constants module
(`SYSTEM_INSTRUCTIONS`) and `src/services/geminiService.ts`
(`mapMessagesToContent`, `generateResponse`).

The provider (`ai.models.generateContent`) is modelled as an oracle indexed
by the 1-based call number; each call either returns a response value or
fails with an error value carrying an optional message string.  The
`while`-loop of `generateResponse` is embedded as `loopGo`, structurally
recursive on `remaining = maxAttempts - attempts` (the value of the loop
guard `attempts < maxAttempts`); the source variable `attempts` is carried
alongside, exactly as in the source.  Besides the outcome, the embedding
returns an execution trace recording, in chronological order, the provider
requests issued, the waits performed (`await wait(delay)`) and the number of
model downgrades, so that specifications about attempt counts, backoff
delays and downgrades can be stated.
-/

/-- `Subject` enum from `src/types.ts`. -/
inductive Subject where
  | MATH
  | PHYSICS
  | CHEMISTRY
  | ENGLISH
  | GENERAL
deriving DecidableEq, Repr

/-- `ThinkingLevel` union type `'none' | 'moderate' | 'deep'` from `src/types.ts`. -/
inductive ThinkingLevel where
  | none
  | moderate
  | deep
deriving DecidableEq, Repr

/-- Message role: `'user' | 'model'` from `src/types.ts`. -/
inductive Role where
  | user
  | model
deriving DecidableEq, Repr

/-- The `inlineData` payload of a `MessagePart` (`src/types.ts`). -/
structure InlineData where
  mimeType : String
  data : String
deriving DecidableEq, Repr

/-- `MessagePart` from `src/types.ts`: both fields optional in TS. -/
structure MessagePart where
  text : Option String
  inlineData : Option InlineData
deriving DecidableEq, Repr

/-- `Message` from `src/types.ts`. -/
structure Message where
  role : Role
  parts : List MessagePart
  timestamp : Nat
  isError : Option Bool
deriving DecidableEq, Repr

/-- A part of an SDK `Content` value: either an inline-data part or a text part. -/
inductive SDKPart where
  | inlineData (mimeType : String) (data : String)
  | text (s : String)
deriving DecidableEq, Repr

/-- SDK `Content`: a role together with a list of parts. -/
structure Content where
  role : Role
  parts : List SDKPart
deriving DecidableEq, Repr

/-- SDK `Tool`: the only tool the code ever builds is `{ googleSearch: {} }`. -/
inductive Tool where
  | googleSearch
deriving DecidableEq, Repr

/-- The request descriptor passed to `ai.models.generateContent`
(`geminiService.ts` lines 80–88): model name, contents, system instruction,
optional thinking config (present iff `thinkingBudget > 0`) and optional
tools list (present iff the tools array is non-empty). -/
structure GenRequest where
  model : String
  contents : List Content
  systemInstruction : String
  thinkingConfig : Option Nat
  tools : Option (List Tool)
deriving DecidableEq, Repr

/-- A provider error value; `message` is optional, as in
`error.message?.toLowerCase() || ""`. -/
structure PError where
  message : Option String
deriving DecidableEq, Repr

/-- A web reference inside a grounding chunk: `chunk.web.title` / `chunk.web.uri`. -/
structure WebRef where
  title : String
  uri : String
deriving DecidableEq, Repr

/-- A grounding chunk; its `web` field is optional (`if (chunk.web)`). -/
structure GroundingChunk where
  web : Option WebRef
deriving DecidableEq, Repr

/-- `groundingMetadata` of a candidate; `groundingChunks` is optional. -/
structure GroundingMetadata where
  groundingChunks : Option (List GroundingChunk)
deriving DecidableEq, Repr

/-- A response candidate; `groundingMetadata` is optional. -/
structure Candidate where
  groundingMetadata : Option GroundingMetadata
deriving DecidableEq, Repr

/-- A provider response: optional `text` and the candidate list traversed by
`response.candidates?.[0]?.groundingMetadata?.groundingChunks`. -/
structure GenResponse where
  text : Option String
  candidates : List Candidate
deriving DecidableEq, Repr

/-- The provider oracle: call number (1-based, equal to the value of
`attempts` at the call site) and request, to a result. -/
def Provider : Type :=
  Nat → GenRequest → Except PError GenResponse

/-- Execution trace of one `generateResponse` invocation: provider requests
issued, waits performed (ms, chronological) and number of model downgrades. -/
structure RunTrace where
  calls : List GenRequest
  waits : List Rat
  downgrades : Nat
deriving DecidableEq, Repr

/-- Terminal outcome of `generateResponse`:
`done` — normal return of the normalized text;
`fatal` — `throw error` of the original provider error (line 148);
`rateLimited` — `throw new Error("RATE_LIMIT_60")` (line 143);
`connectionFailed` — `throw new Error("Connection failed.")` after the loop
exits (line 152). -/
inductive Outcome where
  | done (text : String)
  | fatal (e : PError)
  | rateLimited
  | connectionFailed
deriving DecidableEq, Repr

/-- `BASE_INSTRUCTION` template string from the constants module. -/
def BASE_INSTRUCTION : String := "
The user may provide text or an image containing ONE or MULTIPLE questions.
Subjects: Math, Physics, Chemistry, English.
Languages: English, Bangla, Banglish.

CRITICAL INSTRUCTIONS:
1. Analyze the input carefully.
2. If an image is provided, **EXTRACT ALL** questions visible in the image. DO NOT stop after the first one.
   - **HANDWRITING DETECTION**: You are an expert at reading handwritten notes in English and Bangla. Transcribe them precisely before solving.
3. If the extracted text contains a list of problems (e.g., 1, 2, 3 or a, b, c), you MUST solve EACH of them sequentially.
4. For EACH question found:
   a. **Rewrite** the question clearly. (Use LaTeX for math).
   b. **Solve** or **Answer** it using a **HIGHLY STRUCTURED** format.

      **FORMATTING RULES FOR \"SOLUTION\" SECTION:**
      - **NEVER** write a single block of text or long paragraphs.
      - **ALWAYS** use **Bullet Points** ( - ) for step-by-step explanations.
      - **ALWAYS** use **Bold** ( **text** ) to highlight key terms, formula names, or important variable values.
      - **SPACING**: Leave an empty line between steps.

      - **SPECIFIC SUBJECT GUIDELINES**:
        - **MATH/PHYSICS/CHEMISTRY (Calculations)**:
          - Use a bullet point to explain the logic (e.g., \"- First, we use Newton's Law:\").
          - Immediately follow with the math equation on a new line.
          - Use LaTeX for ALL math.
          - **Preferred Math Layout**:
            $$
            \\begin{aligned}
            F &= ma \\\\
            100 &= 20 \\times a \\\\
            a &= 5 \\, m/s^2
            \\end{aligned}
            $$

        - **ENGLISH/THEORY**:
          - Use bullet points to break down definitions, grammar rules, or facts.
          - **Example**:
            - **Noun**: A name of a person, place, or thing.
            - **Verb**: An action word.

   c. **Answer** with the final result in a clear, bold statement.

LANGUAGE RULES (STRICT):
- **MATCH THE USER'S LANGUAGE EXACTLY.**
- If the user writes in **Bangla** or **Banglish**, your entire explanation, steps, and conversational text MUST be in **Bangla** or **Banglish**.
- **STRICT PROHIBITION**: If the user inputs Bangla/Banglish, the output must contain **ZERO** English sentences. Only Math terms (x, y, cos, sin) or specific English terminology (e.g., \"Photosynthesis\") are allowed in English script. Everything else must be Bangla script or Banglish transliteration.
- If the user writes in English, use English.

FORMAT OUTPUT USING MARKDOWN:

For each question, use the following block. If multiple questions exist, repeat this block for each one and separate them with a horizontal rule '---'.

## Extracted Question [Index if multiple]
[Clean rewritten question, math written in LaTeX]

## Solution
[Step-by-step explanation. MUST USE BULLET POINTS and BOLD TEXT for readability.]

## Final Answer
[Clearly stated final result in USER'S LANGUAGE]

---
"

/-- `SYSTEM_INSTRUCTIONS` record from the constants module, as a function of
the subject. -/
def SYSTEM_INSTRUCTIONS : Subject → String
  | Subject.MATH => "You are an expert Mathematics problem-solving AI.
" ++ BASE_INSTRUCTION ++ "
**MATH SPECIFIC GUIDELINES**:
- **Identify Topic**: Briefly identify the math topic (e.g., \"Calculus - Integration\" or \"Algebra - Quadratic Equations\") at the start.
- **Show Your Work**: Ensure every logical step is visible. Do not skip arithmetic steps unless they are trivial.
- **Verification**: Implicitly double-check your result before stating the final answer.
- **Geometry**: If describing shapes without an image, use clear descriptive language."
  | Subject.PHYSICS => "You are an expert Physics problem-solving AI. " ++ BASE_INSTRUCTION
  | Subject.CHEMISTRY => "You are an expert Chemistry problem-solving AI.
" ++ BASE_INSTRUCTION ++ "
**CHEMISTRY SPECIFIC RULE**: For reaction completion, naming, or factual questions, keep the \"Solution\" section VERY SHORT but still use bullet points. Just provide the equation or fact. Only use detailed steps for numerical stoichiometry/equilibrium problems."
  | Subject.ENGLISH => "You are an expert English Language Tutor.
" ++ BASE_INSTRUCTION ++ "
**ENGLISH SPECIFIC RULE**: BE EXTREMELY CONCISE but VISUALLY ORGANIZED.
- If asked for a grammar fix, use a bullet list:
  - **Incorrect**: [Sentence]
  - **Correct**: [Sentence]
  - **Reason**: [Brief reason]
- If asked for a meaning, give the definition directly.
- **NO** long lectures. **NO** unnecessary examples unless asked." ++ ""
  | Subject.GENERAL => "You are a helpful AI assistant known as চুদলিংপং স্যার. " ++ BASE_INSTRUCTION

/-- The inner lambda of `mapMessagesToContent` (`geminiService.ts` lines
9–19): an inline-data part wins over text; otherwise `p.text || ''`. -/
def mapPart (p : MessagePart) : SDKPart :=
  match p.inlineData with
  | some d => SDKPart.inlineData d.mimeType d.data
  | none => SDKPart.text (p.text.getD "")

/-- `mapMessagesToContent` (`geminiService.ts` lines 6–21). -/
def mapMessagesToContent (messages : List Message) : List Content :=
  messages.map fun msg => { role := msg.role, parts := msg.parts.map mapPart }

/-- Substring search on character lists: `pat` occurs in the list iff it is
a prefix of some suffix. -/
def hasSubstrAux : List Char → List Char → Bool
  | [], pat => pat.isEmpty
  | c :: cs, pat => pat.isPrefixOf (c :: cs) || hasSubstrAux cs pat

/-- JavaScript `String.prototype.includes`: substring containment. -/
def hasSubstr (s pat : String) : Bool :=
  hasSubstrAux s.toList pat.toList

/-- Lower-casing, character by character, as JavaScript `toLowerCase` acts
on the strings involved here. -/
def strToLower (s : String) : String :=
  String.mk (s.data.map Char.toLower)

/-- `error.message?.toLowerCase() || ""` (`geminiService.ts` line 114); an
absent message and a message that lowercases to the empty string both give
the empty string. -/
def errLower (e : PError) : String :=
  strToLower (e.message.getD "")

/-- `isRateLimit` classification (`geminiService.ts` line 117). -/
def isRateLimitMsg (errorMessage : String) : Bool :=
  hasSubstr errorMessage "429" || hasSubstr errorMessage "quota" ||
    hasSubstr errorMessage "limit"

/-- `isServerOverload` classification (`geminiService.ts` line 118). -/
def isOverloadMsg (errorMessage : String) : Bool :=
  hasSubstr errorMessage "503" || hasSubstr errorMessage "overloaded"

/-- JavaScript `s || d` for an optional string `s`: the default wins exactly
when `s` is absent or empty (falsy). -/
def jsOrElse (s : Option String) (d : String) : String :=
  match s with
  | some t => if t.isEmpty then d else t
  | none => d

/-- `[...new Set(l)]`, with the set of already-seen elements made explicit:
keeps the first occurrence of each element, in first-seen order. -/
def jsSetDedupAux {α : Type} [DecidableEq α] : List α → List α → List α
  | [], _ => []
  | a :: as, seen =>
    if a ∈ seen then jsSetDedupAux as seen
    else a :: jsSetDedupAux as (a :: seen)

/-- `[...new Set(l)]` (`geminiService.ts` line 104). -/
def jsSetDedup {α : Type} [DecidableEq α] (l : List α) : List α :=
  jsSetDedupAux l []

/-- The markdown source line rendered for one web reference
(`geminiService.ts` line 98). -/
def renderSource (p : String × String) : String :=
  "- [" ++ p.1 ++ "](" ++ p.2 ++ ")"

/-- The (title, uri) pairs of the web references of a chunk list, in order. -/
def webPairs (chunks : List GroundingChunk) : List (String × String) :=
  (chunks.filterMap GroundingChunk.web).map fun w => (w.title, w.uri)

/-- `response.candidates?.[0]?.groundingMetadata?.groundingChunks`
(`geminiService.ts` line 93). -/
def groundingChunksOf (response : GenResponse) : Option (List GroundingChunk) :=
  (response.candidates.head?.bind Candidate.groundingMetadata).bind
    GroundingMetadata.groundingChunks

/-- The fixed fallback sentence substituted for a missing or empty
`response.text` (`geminiService.ts` line 90). -/
def fallbackText : String := "I couldn't generate a text response."

/-- Response normalization (`geminiService.ts` lines 90–111): fallback text
for a falsy `response.text`, then the de-duplicated markdown Sources section
when grounding chunks with web references are present. -/
def normalizeResponse (response : GenResponse) : String :=
  let text := jsOrElse response.text fallbackText
  match groundingChunksOf response with
  | some groundingChunks =>
    if groundingChunks.length > 0 then
      let sources :=
        (groundingChunks.map fun chunk =>
          match chunk.web with
          | some w => some ("- [" ++ w.title ++ "](" ++ w.uri ++ ")")
          | none => none).filterMap id
      let uniqueSources := jsSetDedup sources
      if uniqueSources.length > 0 then
        text ++ "\n\n---\n### 🌐 Sources\n" ++ String.intercalate "\n" uniqueSources
      else text
    else text
  | none => text

/-- `maxAttempts = 3` (`geminiService.ts` line 73). -/
def maxAttempts : Nat := 3

/-- The request built at lines 80–88 of `geminiService.ts`:
`thinkingConfig` present iff `thinkingBudget > 0`, `tools` present iff the
tools array is non-empty (`tools.length > 0 ? tools : undefined`). -/
def mkRequest (modelName : String) (thinkingBudget : Nat) (contents : List Content)
    (systemInstruction : String) (tools : List Tool) : GenRequest :=
  { model := modelName
    contents := contents
    systemInstruction := systemInstruction
    thinkingConfig := if thinkingBudget > 0 then some thinkingBudget else none
    tools := if tools.length > 0 then some tools else none }

/-- The `while (attempts < maxAttempts)` loop of `generateResponse`
(`geminiService.ts` lines 76–152).  `remaining` is `maxAttempts - attempts`,
the loop guard made structural; `attempts`, `modelName`, `thinkingBudget` and
`delay` are the source's mutable variables.  `remaining = 0` is the loop
exiting, i.e. `throw new Error("Connection failed.")` (line 152). -/
def loopGo (provider : Provider) (contents : List Content)
    (systemInstruction : String) (tools : List Tool) :
    Nat → Nat → String → Nat → Rat → RunTrace × Outcome
  | 0, _, _, _, _ => (⟨[], [], 0⟩, Outcome.connectionFailed)
  | remaining + 1, attempts, modelName, thinkingBudget, delay =>
    let attempts' := attempts + 1
    let req := mkRequest modelName thinkingBudget contents systemInstruction tools
    match provider attempts' req with
    | Except.ok response => (⟨[req], [], 0⟩, Outcome.done (normalizeResponse response))
    | Except.error error =>
      let errorMessage := errLower error
      let isRateLimit := isRateLimitMsg errorMessage
      let isServerOverload := isOverloadMsg errorMessage
      if isRateLimit || isServerOverload then
        if modelName = "gemini-3-pro-preview" then
          let r := loopGo provider contents systemInstruction tools
            remaining attempts' "gemini-2.5-flash" 0 1000
          (⟨req :: r.1.calls, r.1.waits, r.1.downgrades + 1⟩, r.2)
        else if attempts' < maxAttempts then
          let r := loopGo provider contents systemInstruction tools
            remaining attempts' modelName thinkingBudget (delay * (3 / 2))
          (⟨req :: r.1.calls, delay :: r.1.waits, r.1.downgrades⟩, r.2)
        else (⟨[req], [], 0⟩, Outcome.rateLimited)
      else (⟨[req], [], 0⟩, Outcome.fatal error)

/-- The `switch (thinkingLevel)` of `geminiService.ts` lines 42–59: initial
model name and thinking budget. -/
def initialModelBudget : ThinkingLevel → String × Nat
  | ThinkingLevel.deep => ("gemini-3-pro-preview", 8192)
  | ThinkingLevel.moderate => ("gemini-2.5-flash", 2048)
  | ThinkingLevel.none => ("gemini-2.5-flash", 0)

/-- The tools array built at lines 64–67 of `geminiService.ts`. -/
def buildTools (useSearch : Bool) : List Tool :=
  if useSearch then [Tool.googleSearch] else []

/-- The first (and, absent a downgrade, every) request issued by
`generateResponse` for the given arguments. -/
def initialRequest (history : List Message) (currentSubject : Subject)
    (thinkingLevel : ThinkingLevel) (useSearch : Bool) : GenRequest :=
  mkRequest (initialModelBudget thinkingLevel).1 (initialModelBudget thinkingLevel).2
    (mapMessagesToContent history) (SYSTEM_INSTRUCTIONS currentSubject)
    (buildTools useSearch)

/-- The string returned when no API key is configured (`geminiService.ts`
line 36). -/
def configErrorMessage : String :=
  "The AI service is not configured correctly. Please set the API Key in your dashboard."

/-- `generateResponse` (`geminiService.ts` lines 26–153).  `apiKey` models
`process.env.API_KEY` (absent or set); `if (!apiKey)` is true for an absent
or empty key.  The provider oracle stands for `ai.models.generateContent`. -/
def generateResponse (apiKey : Option String) (history : List Message)
    (currentSubject : Subject) (thinkingLevel : ThinkingLevel) (useSearch : Bool)
    (provider : Provider) : RunTrace × Outcome :=
  if (apiKey.getD "").isEmpty then
    (⟨[], [], 0⟩, Outcome.done configErrorMessage)
  else
    let mb := initialModelBudget thinkingLevel
    let contents := mapMessagesToContent history
    let systemInstruction := SYSTEM_INSTRUCTIONS currentSubject
    let tools := buildTools useSearch
    loopGo provider contents systemInstruction tools maxAttempts 0 mb.1 mb.2 1000

/-- Stated from the spec's words, for comparison with `normalizeResponse`
(refinement check of the Sources section): the Sources section lists each
distinct (title, uri) pair exactly once — de-duplicated by exact string
equality of the pair, not of the rendered line — in first-seen order. -/
def specNormalizedOutput (response : GenResponse) : String :=
  let text := jsOrElse response.text fallbackText
  match groundingChunksOf response with
  | some chunks =>
    if (webPairs chunks).length > 0 then
      text ++ "\n\n---\n### 🌐 Sources\n" ++
        String.intercalate "\n" ((jsSetDedup (webPairs chunks)).map renderSource)
    else text
  | none => text

/-! ## Step equations for the retry loop -/

/-- Step equation: the provider call succeeds, the loop returns the
normalized text. -/
theorem loopGo_step_ok (P : Provider) (c : List Content) (s : String)
    (tl : List Tool) (r a : Nat) (m : String) (b : Nat) (d : Rat)
    (resp : GenResponse)
    (hp : P (a + 1) (mkRequest m b c s tl) = Except.ok resp) :
    loopGo P c s tl (r + 1) a m b d
      = (⟨[mkRequest m b c s tl], [], 0⟩, Outcome.done (normalizeResponse resp)) := by
  simp [loopGo, hp]

/-- Step equation: retryable failure on the premium model — immediate
downgrade to the fast model, budget 0, delay reset to 1000, no wait. -/
theorem loopGo_step_pro (P : Provider) (c : List Content) (s : String)
    (tl : List Tool) (r a b : Nat) (d : Rat) (e : PError)
    (hp : P (a + 1) (mkRequest "gemini-3-pro-preview" b c s tl) = Except.error e)
    (hcl : (isRateLimitMsg (errLower e) || isOverloadMsg (errLower e)) = true) :
    loopGo P c s tl (r + 1) a "gemini-3-pro-preview" b d
      = (⟨mkRequest "gemini-3-pro-preview" b c s tl ::
            (loopGo P c s tl r (a + 1) "gemini-2.5-flash" 0 1000).1.calls,
          (loopGo P c s tl r (a + 1) "gemini-2.5-flash" 0 1000).1.waits,
          (loopGo P c s tl r (a + 1) "gemini-2.5-flash" 0 1000).1.downgrades + 1⟩,
         (loopGo P c s tl r (a + 1) "gemini-2.5-flash" 0 1000).2) := by
  simp [loopGo, hp, hcl]

/-- Step equation: retryable failure off the premium model with attempts
left — wait the current delay, multiply it by 1.5, retry. -/
theorem loopGo_step_retry (P : Provider) (c : List Content) (s : String)
    (tl : List Tool) (r a : Nat) (m : String) (b : Nat) (d : Rat) (e : PError)
    (hp : P (a + 1) (mkRequest m b c s tl) = Except.error e)
    (hcl : (isRateLimitMsg (errLower e) || isOverloadMsg (errLower e)) = true)
    (hm : m ≠ "gemini-3-pro-preview") (ha : a + 1 < maxAttempts) :
    loopGo P c s tl (r + 1) a m b d
      = (⟨mkRequest m b c s tl ::
            (loopGo P c s tl r (a + 1) m b (d * (3 / 2))).1.calls,
          d :: (loopGo P c s tl r (a + 1) m b (d * (3 / 2))).1.waits,
          (loopGo P c s tl r (a + 1) m b (d * (3 / 2))).1.downgrades⟩,
         (loopGo P c s tl r (a + 1) m b (d * (3 / 2))).2) := by
  simp [loopGo, hp, hcl, hm, ha]

/-- Step equation: retryable failure off the premium model with no attempts
left — the distinguished rate-limited failure. -/
theorem loopGo_step_exhaust (P : Provider) (c : List Content) (s : String)
    (tl : List Tool) (r a : Nat) (m : String) (b : Nat) (d : Rat) (e : PError)
    (hp : P (a + 1) (mkRequest m b c s tl) = Except.error e)
    (hcl : (isRateLimitMsg (errLower e) || isOverloadMsg (errLower e)) = true)
    (hm : m ≠ "gemini-3-pro-preview") (ha : ¬ a + 1 < maxAttempts) :
    loopGo P c s tl (r + 1) a m b d
      = (⟨[mkRequest m b c s tl], [], 0⟩, Outcome.rateLimited) := by
  simp [loopGo, hp, hcl, hm, ha]

/-- Step equation: non-retryable failure — the original error propagates at
once. -/
theorem loopGo_step_fatal (P : Provider) (c : List Content) (s : String)
    (tl : List Tool) (r a : Nat) (m : String) (b : Nat) (d : Rat) (e : PError)
    (hp : P (a + 1) (mkRequest m b c s tl) = Except.error e)
    (hcl : (isRateLimitMsg (errLower e) || isOverloadMsg (errLower e)) = false) :
    loopGo P c s tl (r + 1) a m b d
      = (⟨[mkRequest m b c s tl], [], 0⟩, Outcome.fatal e) := by
  simp [loopGo, hp, hcl]

/-! ## Properties of the first-seen de-duplication -/

/-- Everything produced by `jsSetDedupAux` comes from the input list. -/
theorem jsSetDedupAux_sublist {α : Type} [DecidableEq α] :
    ∀ (l seen : List α), List.Sublist (jsSetDedupAux l seen) l := by
  intro l
  induction l with
  | nil => intro seen; simp [jsSetDedupAux]
  | cons a as ih =>
    intro seen
    simp only [jsSetDedupAux]
    by_cases hmem : a ∈ seen
    · rw [if_pos hmem]
      exact List.Sublist.cons a (ih seen)
    · rw [if_neg hmem]
      exact List.Sublist.cons₂ a (ih (a :: seen))

/-- `jsSetDedupAux` never emits an element it has already seen. -/
theorem jsSetDedupAux_not_mem_seen {α : Type} [DecidableEq α] :
    ∀ (l seen : List α) (x : α), x ∈ jsSetDedupAux l seen → x ∉ seen := by
  intro l
  induction l with
  | nil => intro seen x hx; simp [jsSetDedupAux] at hx
  | cons a as ih =>
    intro seen x hx
    simp only [jsSetDedupAux] at hx
    by_cases hmem : a ∈ seen
    · rw [if_pos hmem] at hx
      exact ih seen x hx
    · rw [if_neg hmem] at hx
      rcases List.mem_cons.mp hx with hxa | hxs
      · rw [hxa]; exact hmem
      · intro hxseen
        exact ih (a :: seen) x hxs (List.mem_cons_of_mem a hxseen)

/-- The output of `jsSetDedupAux` has no duplicates. -/
theorem jsSetDedupAux_nodup {α : Type} [DecidableEq α] :
    ∀ (l seen : List α), (jsSetDedupAux l seen).Nodup := by
  intro l
  induction l with
  | nil => intro seen; simp [jsSetDedupAux]
  | cons a as ih =>
    intro seen
    simp only [jsSetDedupAux]
    by_cases hmem : a ∈ seen
    · rw [if_pos hmem]; exact ih seen
    · rw [if_neg hmem]
      refine List.nodup_cons.mpr ⟨?_, ih (a :: seen)⟩
      intro ha
      exact jsSetDedupAux_not_mem_seen as (a :: seen) a ha (List.mem_cons_self a seen)

/-- Every unseen element of the input occurs in the output of
`jsSetDedupAux`. -/
theorem jsSetDedupAux_mem {α : Type} [DecidableEq α] :
    ∀ (l seen : List α) (x : α), x ∈ l → x ∉ seen → x ∈ jsSetDedupAux l seen := by
  intro l
  induction l with
  | nil => intro seen x hx; simp at hx
  | cons a as ih =>
    intro seen x hx hseen
    simp only [jsSetDedupAux]
    by_cases hmem : a ∈ seen
    · rw [if_pos hmem]
      rcases List.mem_cons.mp hx with hxa | hxs
      · exact absurd (hxa ▸ hmem) hseen
      · exact ih seen x hxs hseen
    · rw [if_neg hmem]
      by_cases hxa : x = a
      · rw [hxa]; exact List.mem_cons_self a _
      · rcases List.mem_cons.mp hx with h | hxs
        · exact absurd h hxa
        · refine List.mem_cons_of_mem a (ih (a :: seen) x hxs ?_)
          intro hx'
          rcases List.mem_cons.mp hx' with h | h
          · exact hxa h
          · exact hseen h

/-- `jsSetDedupAux` commutes with mapping an (injective-on-the-inputs)
function over both the list and the seen set. -/
theorem jsSetDedupAux_map {α β : Type} [DecidableEq α] [DecidableEq β] (f : α → β) :
    ∀ (l seen : List α),
      (∀ x ∈ l, ∀ y ∈ l, f x = f y → x = y) →
      (∀ x ∈ l, ∀ y ∈ seen, f x = f y → x = y) →
      jsSetDedupAux (l.map f) (seen.map f) = (jsSetDedupAux l seen).map f := by
  intro l
  induction l with
  | nil => intro seen _ _; simp [jsSetDedupAux]
  | cons a as ih =>
    intro seen hl hls
    simp only [List.map_cons, jsSetDedupAux]
    have hmem_iff : f a ∈ seen.map f ↔ a ∈ seen := by
      constructor
      · intro h
        rcases List.mem_map.mp h with ⟨y, hy, hfy⟩
        have : a = y := hls a (List.mem_cons_self a as) y hy hfy.symm
        rw [this]; exact hy
      · intro h; exact List.mem_map_of_mem f h
    have hl' : ∀ x ∈ as, ∀ y ∈ as, f x = f y → x = y := fun x hx y hy =>
      hl x (List.mem_cons_of_mem a hx) y (List.mem_cons_of_mem a hy)
    by_cases hmem : a ∈ seen
    · rw [if_pos (hmem_iff.mpr hmem), if_pos hmem]
      exact ih seen hl' fun x hx y hy =>
        hls x (List.mem_cons_of_mem a hx) y hy
    · rw [if_neg (fun h => hmem (hmem_iff.mp h)), if_neg hmem]
      rw [List.map_cons]
      have : jsSetDedupAux (as.map f) ((a :: seen).map f)
          = (jsSetDedupAux as (a :: seen)).map f := by
        refine ih (a :: seen) hl' ?_
        intro x hx y hy hfxy
        rcases List.mem_cons.mp hy with hya | hys
        · exact hl x (List.mem_cons_of_mem a hx) y (hya ▸ List.mem_cons_self a as) hfxy
        · exact hls x (List.mem_cons_of_mem a hx) y hys hfxy
      rw [List.map_cons] at this
      rw [this]

/-- `jsSetDedup` commutes with an injective-on-the-input map. -/
theorem jsSetDedup_map {α β : Type} [DecidableEq α] [DecidableEq β] (f : α → β)
    (l : List α) (hinj : ∀ x ∈ l, ∀ y ∈ l, f x = f y → x = y) :
    jsSetDedup (l.map f) = (jsSetDedup l).map f := by
  have := jsSetDedupAux_map f l [] hinj (by intro x _ y hy; simp at hy)
  simpa [jsSetDedup] using this

/-- De-duplicating a non-empty list yields a non-empty list. -/
theorem jsSetDedup_ne_nil {α : Type} [DecidableEq α] (l : List α) (h : l ≠ []) :
    jsSetDedup l ≠ [] := by
  cases l with
  | nil => exact absurd rfl h
  | cons a as => simp [jsSetDedup, jsSetDedupAux]

/-- The sources array built at `geminiService.ts` lines 95–102 renders
exactly the (title, uri) pairs of the web references, in order. -/
theorem sources_eq (chunks : List GroundingChunk) :
    ((chunks.map fun chunk =>
        match chunk.web with
        | some w => some ("- [" ++ w.title ++ "](" ++ w.uri ++ ")")
        | none => none).filterMap id)
      = (webPairs chunks).map renderSource := by
  induction chunks with
  | nil => rfl
  | cons c cs ih =>
    cases hw : c.web with
    | none => simpa [webPairs, List.filterMap_cons, hw] using ih
    | some w =>
      simp only [List.map_cons, List.filterMap_cons, hw, id] at ih ⊢
      simpa [webPairs, renderSource, List.filterMap_cons, hw] using ih

/-! ## Loop invariants -/

/-- Under the invariants that actually hold at the loop's entry —
`remaining + attempts = maxAttempts`, and the premium model implies no
iteration has run yet — the loop never falls through to
`throw new Error("Connection failed.")`. -/
theorem loopGo_ne_connectionFailed (P : Provider) (c : List Content) (s : String)
    (tl : List Tool) :
    ∀ (r a : Nat) (m : String) (b : Nat) (d : Rat),
      r + a = maxAttempts →
      (m = "gemini-3-pro-preview" → r = maxAttempts) →
      0 < r →
      (loopGo P c s tl r a m b d).2 ≠ Outcome.connectionFailed := by
  intro r
  induction r with
  | zero => intro a m b d _ _ hpos; exact absurd hpos (by omega)
  | succ r ih =>
    intro a m b d hsum hpro _
    cases hP : P (a + 1) (mkRequest m b c s tl) with
    | ok resp =>
      rw [loopGo_step_ok P c s tl r a m b d resp hP]
      simp
    | error e =>
      rcases Bool.eq_false_or_eq_true
          (isRateLimitMsg (errLower e) || isOverloadMsg (errLower e)) with hcl | hcl
      case inr =>
        rw [loopGo_step_fatal P c s tl r a m b d e hP hcl]
        simp
      case inl =>
        by_cases hm : m = "gemini-3-pro-preview"
        · subst hm
          rw [loopGo_step_pro P c s tl r a b d e hP hcl]
          simp only []
          have hr : r + 1 = maxAttempts := hpro rfl
          refine ih (a + 1) "gemini-2.5-flash" 0 1000 (by omega) ?_
            (by simp [maxAttempts] at hr ⊢; omega)
          intro hflash
          exact absurd hflash (by decide)
        · by_cases ha : a + 1 < maxAttempts
          · rw [loopGo_step_retry P c s tl r a m b d e hP hcl hm ha]
            simp only []
            refine ih (a + 1) m b (d * (3 / 2)) (by omega) (fun hmm => absurd hmm hm) ?_
            simp [maxAttempts] at ha hsum ⊢
            omega
          · rw [loopGo_step_exhaust P c s tl r a m b d e hP hcl hm ha]
            simp

/-- As long as the loop guard holds, the first provider request of an
iteration of the loop is built from the current model, budget, contents,
system instruction and tools. -/
theorem loopGo_first_call (P : Provider) (c : List Content) (s : String)
    (tl : List Tool) (r a : Nat) (m : String) (b : Nat) (d : Rat) :
    (loopGo P c s tl (r + 1) a m b d).1.calls.head? = some (mkRequest m b c s tl) := by
  cases hP : P (a + 1) (mkRequest m b c s tl) with
  | ok resp => rw [loopGo_step_ok P c s tl r a m b d resp hP]; rfl
  | error e =>
    rcases Bool.eq_false_or_eq_true
        (isRateLimitMsg (errLower e) || isOverloadMsg (errLower e)) with hcl | hcl
    case inr => rw [loopGo_step_fatal P c s tl r a m b d e hP hcl]; rfl
    case inl =>
      by_cases hm : m = "gemini-3-pro-preview"
      · subst hm
        rw [loopGo_step_pro P c s tl r a b d e hP hcl]; rfl
      · by_cases ha : a + 1 < maxAttempts
        · rw [loopGo_step_retry P c s tl r a m b d e hP hcl hm ha]; rfl
        · rw [loopGo_step_exhaust P c s tl r a m b d e hP hcl hm ha]; rfl

/-- As long as the loop guard holds, at least one provider request is
issued. -/
theorem loopGo_calls_pos (P : Provider) (c : List Content) (s : String)
    (tl : List Tool) (r a : Nat) (m : String) (b : Nat) (d : Rat) :
    1 ≤ (loopGo P c s tl (r + 1) a m b d).1.calls.length := by
  have h := loopGo_first_call P c s tl r a m b d
  cases hc : (loopGo P c s tl (r + 1) a m b d).1.calls with
  | nil => rw [hc] at h; simp at h
  | cons q qs => simp [hc]

/-! ## Claim theorems -/

/-- C1: every invocation of `generateResponse` terminates with a normal
return of normalized text (`done`), the immediately propagated original
provider error (`fatal`), or the distinguished `rateLimited` failure; the
loop's `"Connection failed."` fall-through is unreachable, so no other
error value can be produced and no failure is swallowed. -/
theorem generateResponse_terminal_trichotomy (apiKey : Option String)
    (history : List Message) (currentSubject : Subject)
    (thinkingLevel : ThinkingLevel) (useSearch : Bool) (provider : Provider) :
    (∃ t, (generateResponse apiKey history currentSubject thinkingLevel useSearch
        provider).2 = Outcome.done t)
    ∨ (∃ e, (generateResponse apiKey history currentSubject thinkingLevel useSearch
        provider).2 = Outcome.fatal e)
    ∨ (generateResponse apiKey history currentSubject thinkingLevel useSearch
        provider).2 = Outcome.rateLimited := by
  have hne : (generateResponse apiKey history currentSubject thinkingLevel useSearch
      provider).2 ≠ Outcome.connectionFailed := by
    by_cases hk : (apiKey.getD "").isEmpty
    · simp [generateResponse, hk]
    · simp only [generateResponse, if_neg hk]
      exact loopGo_ne_connectionFailed provider (mapMessagesToContent history)
        (SYSTEM_INSTRUCTIONS currentSubject) (buildTools useSearch) maxAttempts 0
        (initialModelBudget thinkingLevel).1 (initialModelBudget thinkingLevel).2 1000
        rfl (fun _ => rfl) (by decide)
  cases ho : (generateResponse apiKey history currentSubject thinkingLevel useSearch
      provider).2 with
  | done t => exact Or.inl ⟨t, rfl⟩
  | fatal e => exact Or.inr (Or.inl ⟨e, rfl⟩)
  | rateLimited => exact Or.inr (Or.inr rfl)
  | connectionFailed => exact absurd ho hne

/-- C2 counterexample: with no API key configured, `generateResponse` does
not raise any configuration-error failure — it terminates with a normal
successful return (`Outcome.done`) of a fixed message string (while indeed
issuing zero provider calls). -/
theorem generateResponse_missing_key_counterexample :
    generateResponse Option.none
        [⟨Role.user, [⟨some "hello", Option.none⟩], 0, Option.none⟩]
        Subject.MATH ThinkingLevel.none false
        (fun _ _ => Except.ok ⟨some "hi", []⟩)
      = (⟨[], [], 0⟩, Outcome.done configErrorMessage) := rfl

/-- C2 amended: if the API key is absent (or empty, which is equally falsy),
`generateResponse` returns the fixed configuration-error message string as a
normal successful return, before any provider request is issued — the trace
records zero provider calls. -/
theorem generateResponse_missing_key (history : List Message)
    (currentSubject : Subject) (thinkingLevel : ThinkingLevel) (useSearch : Bool)
    (provider : Provider) :
    generateResponse Option.none history currentSubject thinkingLevel useSearch provider
        = (⟨[], [], 0⟩, Outcome.done configErrorMessage)
    ∧ generateResponse (some "") history currentSubject thinkingLevel useSearch provider
        = (⟨[], [], 0⟩, Outcome.done configErrorMessage) :=
  ⟨rfl, rfl⟩

/-- C8 counterexample: on a response with no text and no grounding chunks
the normalized output is the fixed fallback sentence of the code,
`"I couldn't generate a text response."`, which is not the sentence
`"no response generated"` stated by the claim. -/
theorem normalizeResponse_fallback_counterexample :
    normalizeResponse ⟨Option.none, []⟩ = fallbackText
    ∧ normalizeResponse ⟨Option.none, []⟩ ≠ "no response generated" := by
  exact ⟨rfl, by decide⟩

/-- C8 amended: if the provider response carries no text (absent or empty
text field) and no grounding chunks, the normalized output equals the fixed
fallback sentence `"I couldn't generate a text response."` — never the
empty string. -/
theorem normalizeResponse_fallback (response : GenResponse)
    (ht : response.text = Option.none ∨ response.text = some "")
    (hc : groundingChunksOf response = Option.none
      ∨ groundingChunksOf response = some []) :
    normalizeResponse response = fallbackText ∧ fallbackText ≠ "" := by
  refine ⟨?_, by decide⟩
  have htext : jsOrElse response.text fallbackText = fallbackText := by
    rcases ht with h | h <;> rw [h] <;> rfl
  rcases hc with h | h <;> simp [normalizeResponse, h, htext]

/-- C8 witness: the amended fallback theorem applied to the concrete
response with empty text and no candidates. -/
theorem normalizeResponse_fallback_witness :
    normalizeResponse ⟨some "", []⟩ = fallbackText ∧ fallbackText ≠ "" :=
  normalizeResponse_fallback ⟨some "", []⟩ (Or.inr rfl) (Or.inl rfl)

/-- C10: a part carrying both an inline image and text is translated to the
image part only (the text is discarded), and a part carrying neither is
translated to a text part holding the empty string. -/
theorem mapPart_image_precedence (txt mimeType data : String) :
    mapPart ⟨some txt, some ⟨mimeType, data⟩⟩ = SDKPart.inlineData mimeType data
    ∧ mapPart ⟨Option.none, Option.none⟩ = SDKPart.text "" :=
  ⟨rfl, rfl⟩

/-- Three consecutive retryable failures on the fast model: three provider
calls, waits of 1000 then 1000·1.5, then the rate-limited failure. -/
theorem loopGo_overload_run (P : Provider) (c : List Content) (s : String)
    (tl : List Tool) (b : Nat)
    (hP : ∀ n req, ∃ e, P n req = Except.error e ∧ isOverloadMsg (errLower e) = true) :
    (loopGo P c s tl maxAttempts 0 "gemini-2.5-flash" b 1000).1.calls.length = 3
    ∧ (loopGo P c s tl maxAttempts 0 "gemini-2.5-flash" b 1000).1.waits
        = [(1000 : Rat), 1500]
    ∧ (loopGo P c s tl maxAttempts 0 "gemini-2.5-flash" b 1000).2
        = Outcome.rateLimited := by
  obtain ⟨e1, hp1, ho1⟩ := hP 1 (mkRequest "gemini-2.5-flash" b c s tl)
  obtain ⟨e2, hp2, ho2⟩ := hP 2 (mkRequest "gemini-2.5-flash" b c s tl)
  obtain ⟨e3, hp3, ho3⟩ := hP 3 (mkRequest "gemini-2.5-flash" b c s tl)
  have hcl1 : (isRateLimitMsg (errLower e1) || isOverloadMsg (errLower e1)) = true := by
    rw [ho1]; simp
  have hcl2 : (isRateLimitMsg (errLower e2) || isOverloadMsg (errLower e2)) = true := by
    rw [ho2]; simp
  have hcl3 : (isRateLimitMsg (errLower e3) || isOverloadMsg (errLower e3)) = true := by
    rw [ho3]; simp
  have h1 : loopGo P c s tl maxAttempts 0 "gemini-2.5-flash" b 1000
      = (⟨mkRequest "gemini-2.5-flash" b c s tl ::
            (loopGo P c s tl 2 1 "gemini-2.5-flash" b (1000 * (3 / 2))).1.calls,
          1000 :: (loopGo P c s tl 2 1 "gemini-2.5-flash" b (1000 * (3 / 2))).1.waits,
          (loopGo P c s tl 2 1 "gemini-2.5-flash" b (1000 * (3 / 2))).1.downgrades⟩,
         (loopGo P c s tl 2 1 "gemini-2.5-flash" b (1000 * (3 / 2))).2) :=
    loopGo_step_retry P c s tl 2 0 "gemini-2.5-flash" b 1000 e1 hp1 hcl1
      (by decide) (by decide)
  have h2 : loopGo P c s tl 2 1 "gemini-2.5-flash" b (1000 * (3 / 2))
      = (⟨mkRequest "gemini-2.5-flash" b c s tl ::
            (loopGo P c s tl 1 2 "gemini-2.5-flash" b (1000 * (3 / 2) * (3 / 2))).1.calls,
          1000 * (3 / 2) ::
            (loopGo P c s tl 1 2 "gemini-2.5-flash" b (1000 * (3 / 2) * (3 / 2))).1.waits,
          (loopGo P c s tl 1 2 "gemini-2.5-flash" b (1000 * (3 / 2) * (3 / 2))).1.downgrades⟩,
         (loopGo P c s tl 1 2 "gemini-2.5-flash" b (1000 * (3 / 2) * (3 / 2))).2) :=
    loopGo_step_retry P c s tl 1 1 "gemini-2.5-flash" b (1000 * (3 / 2)) e2 hp2 hcl2
      (by decide) (by decide)
  have h3 : loopGo P c s tl 1 2 "gemini-2.5-flash" b (1000 * (3 / 2) * (3 / 2))
      = (⟨[mkRequest "gemini-2.5-flash" b c s tl], [], 0⟩, Outcome.rateLimited) :=
    loopGo_step_exhaust P c s tl 0 2 "gemini-2.5-flash" b (1000 * (3 / 2) * (3 / 2))
      e3 hp3 hcl3 (by decide) (by decide)
  rw [h1, h2, h3]
  refine ⟨rfl, ?_, rfl⟩
  norm_num

/-- C3: with the fast tier selected and a provider failing every call with
an overload-classified (503) error, `generateResponse` makes exactly 3
attempts, waits 1000 ms before the second and 1000·1.5 = 1500 ms before the
third, and ends in the distinguished rate-limited failure, not the raw
provider error. -/
theorem generateResponse_overload_retry (key : String) (history : List Message)
    (currentSubject : Subject) (thinkingLevel : ThinkingLevel) (useSearch : Bool)
    (provider : Provider)
    (hk : key.isEmpty = false)
    (hlv : thinkingLevel ≠ ThinkingLevel.deep)
    (hP : ∀ n req, ∃ e, provider n req = Except.error e
      ∧ isOverloadMsg (errLower e) = true) :
    (generateResponse (some key) history currentSubject thinkingLevel useSearch
        provider).1.calls.length = 3
    ∧ (generateResponse (some key) history currentSubject thinkingLevel useSearch
        provider).1.waits = [(1000 : Rat), 1500]
    ∧ (generateResponse (some key) history currentSubject thinkingLevel useSearch
        provider).2 = Outcome.rateLimited := by
  have hk' : ¬ (((some key : Option String).getD "").isEmpty = true) := by
    simp [hk]
  simp only [generateResponse, if_neg hk']
  have hm : (initialModelBudget thinkingLevel).1 = "gemini-2.5-flash" := by
    cases thinkingLevel with
    | deep => exact absurd rfl hlv
    | none => rfl
    | moderate => rfl
  rw [hm]
  exact loopGo_overload_run provider (mapMessagesToContent history)
    (SYSTEM_INSTRUCTIONS currentSubject) (buildTools useSearch)
    (initialModelBudget thinkingLevel).2 hP

/-- C3 witness: the retry/backoff theorem applied to a concrete provider
that always fails with a 503-classified error. -/
theorem generateResponse_overload_retry_witness :
    (generateResponse (some "k") [] Subject.MATH ThinkingLevel.moderate false
        (fun _ _ => Except.error ⟨some "503 the model is overloaded"⟩)).1.calls.length = 3
    ∧ (generateResponse (some "k") [] Subject.MATH ThinkingLevel.moderate false
        (fun _ _ => Except.error ⟨some "503 the model is overloaded"⟩)).1.waits
        = [(1000 : Rat), 1500]
    ∧ (generateResponse (some "k") [] Subject.MATH ThinkingLevel.moderate false
        (fun _ _ => Except.error ⟨some "503 the model is overloaded"⟩)).2
        = Outcome.rateLimited :=
  generateResponse_overload_retry "k" [] Subject.MATH ThinkingLevel.moderate false
    (fun _ _ => Except.error ⟨some "503 the model is overloaded"⟩) rfl (by decide)
    (fun _ _ => ⟨⟨some "503 the model is overloaded"⟩, rfl, by decide⟩)

/-- C5: a provider failure classified neither as rate-limit nor as overload
propagates unmodified on first occurrence: exactly one provider call, no
waits, outcome `fatal` carrying the original error value. -/
theorem generateResponse_fatal_first (key : String) (history : List Message)
    (currentSubject : Subject) (thinkingLevel : ThinkingLevel) (useSearch : Bool)
    (provider : Provider) (e : PError)
    (hk : key.isEmpty = false)
    (hp : provider 1 (initialRequest history currentSubject thinkingLevel useSearch)
      = Except.error e)
    (hrl : isRateLimitMsg (errLower e) = false)
    (hov : isOverloadMsg (errLower e) = false) :
    generateResponse (some key) history currentSubject thinkingLevel useSearch provider
      = (⟨[initialRequest history currentSubject thinkingLevel useSearch], [], 0⟩,
         Outcome.fatal e) := by
  have hk' : ¬ (((some key : Option String).getD "").isEmpty = true) := by
    simp [hk]
  simp only [generateResponse, if_neg hk']
  have hcl : (isRateLimitMsg (errLower e) || isOverloadMsg (errLower e)) = false := by
    rw [hrl, hov]; rfl
  exact loopGo_step_fatal provider (mapMessagesToContent history)
    (SYSTEM_INSTRUCTIONS currentSubject) (buildTools useSearch) 2 0
    (initialModelBudget thinkingLevel).1 (initialModelBudget thinkingLevel).2 1000 e hp hcl

/-- C5 witness: the fatal-propagation theorem applied to a provider that
fails once with a 400 malformed-request error. -/
theorem generateResponse_fatal_first_witness :
    generateResponse (some "k") [] Subject.GENERAL ThinkingLevel.none true
        (fun _ _ => Except.error ⟨some "400 malformed request"⟩)
      = (⟨[initialRequest [] Subject.GENERAL ThinkingLevel.none true], [], 0⟩,
         Outcome.fatal ⟨some "400 malformed request"⟩) :=
  generateResponse_fatal_first "k" [] Subject.GENERAL ThinkingLevel.none true
    (fun _ _ => Except.error ⟨some "400 malformed request"⟩)
    ⟨some "400 malformed request"⟩ rfl rfl (by decide) (by decide)

/-- C4: on a retryable failure while the premium model is selected, the loop
immediately downgrades to the fast model with reasoning budget 0 and the
backoff delay reset to 1000 ms, retrying with no wait and one recorded
downgrade (first conjunct); in particular a provider failing exactly once
with a 429-classified error on the premium tier and succeeding afterwards
yields two calls (premium then fast with budget 0), no waits, exactly one
downgrade and a successful completion — not the rate-limited failure
(second conjunct). -/
theorem generateResponse_premium_downgrade :
    (∀ (P : Provider) (c : List Content) (s : String) (tl : List Tool)
        (r a b : Nat) (d : Rat) (e : PError),
        P (a + 1) (mkRequest "gemini-3-pro-preview" b c s tl) = Except.error e →
        (isRateLimitMsg (errLower e) || isOverloadMsg (errLower e)) = true →
        loopGo P c s tl (r + 1) a "gemini-3-pro-preview" b d
          = (⟨mkRequest "gemini-3-pro-preview" b c s tl ::
                (loopGo P c s tl r (a + 1) "gemini-2.5-flash" 0 1000).1.calls,
              (loopGo P c s tl r (a + 1) "gemini-2.5-flash" 0 1000).1.waits,
              (loopGo P c s tl r (a + 1) "gemini-2.5-flash" 0 1000).1.downgrades + 1⟩,
             (loopGo P c s tl r (a + 1) "gemini-2.5-flash" 0 1000).2))
    ∧ (∀ (key : String) (history : List Message) (currentSubject : Subject)
        (useSearch : Bool) (provider : Provider) (e : PError) (resp : GenResponse),
        key.isEmpty = false →
        provider 1 (initialRequest history currentSubject ThinkingLevel.deep useSearch)
          = Except.error e →
        isRateLimitMsg (errLower e) = true →
        (∀ n req, 2 ≤ n → provider n req = Except.ok resp) →
        generateResponse (some key) history currentSubject ThinkingLevel.deep useSearch
            provider
          = (⟨[initialRequest history currentSubject ThinkingLevel.deep useSearch,
                mkRequest "gemini-2.5-flash" 0 (mapMessagesToContent history)
                  (SYSTEM_INSTRUCTIONS currentSubject) (buildTools useSearch)], [], 1⟩,
             Outcome.done (normalizeResponse resp))) := by
  constructor
  · intro P c s tl r a b d e hp hcl
    exact loopGo_step_pro P c s tl r a b d e hp hcl
  · intro key history currentSubject useSearch provider e resp hk hp hrl hrest
    have hk' : ¬ (((some key : Option String).getD "").isEmpty = true) := by
      simp [hk]
    simp only [generateResponse, if_neg hk']
    have hcl : (isRateLimitMsg (errLower e) || isOverloadMsg (errLower e)) = true := by
      rw [hrl]; rfl
    have h2 : loopGo provider (mapMessagesToContent history)
        (SYSTEM_INSTRUCTIONS currentSubject) (buildTools useSearch) 2 1
        "gemini-2.5-flash" 0 1000
        = (⟨[mkRequest "gemini-2.5-flash" 0 (mapMessagesToContent history)
              (SYSTEM_INSTRUCTIONS currentSubject) (buildTools useSearch)], [], 0⟩,
           Outcome.done (normalizeResponse resp)) :=
      loopGo_step_ok provider (mapMessagesToContent history)
        (SYSTEM_INSTRUCTIONS currentSubject) (buildTools useSearch) 1 1
        "gemini-2.5-flash" 0 1000 resp
        (hrest 2 (mkRequest "gemini-2.5-flash" 0 (mapMessagesToContent history)
          (SYSTEM_INSTRUCTIONS currentSubject) (buildTools useSearch)) (by norm_num))
    have h1 : loopGo provider (mapMessagesToContent history)
        (SYSTEM_INSTRUCTIONS currentSubject) (buildTools useSearch) maxAttempts 0
        (initialModelBudget ThinkingLevel.deep).1 (initialModelBudget ThinkingLevel.deep).2
        1000
        = (⟨mkRequest "gemini-3-pro-preview" 8192 (mapMessagesToContent history)
              (SYSTEM_INSTRUCTIONS currentSubject) (buildTools useSearch) ::
              (loopGo provider (mapMessagesToContent history)
                (SYSTEM_INSTRUCTIONS currentSubject) (buildTools useSearch) 2 1
                "gemini-2.5-flash" 0 1000).1.calls,
            (loopGo provider (mapMessagesToContent history)
              (SYSTEM_INSTRUCTIONS currentSubject) (buildTools useSearch) 2 1
              "gemini-2.5-flash" 0 1000).1.waits,
            (loopGo provider (mapMessagesToContent history)
              (SYSTEM_INSTRUCTIONS currentSubject) (buildTools useSearch) 2 1
              "gemini-2.5-flash" 0 1000).1.downgrades + 1⟩,
           (loopGo provider (mapMessagesToContent history)
             (SYSTEM_INSTRUCTIONS currentSubject) (buildTools useSearch) 2 1
             "gemini-2.5-flash" 0 1000).2) :=
      loopGo_step_pro provider (mapMessagesToContent history)
        (SYSTEM_INSTRUCTIONS currentSubject) (buildTools useSearch) 2 0 8192 1000 e hp hcl
    rw [h1, h2]
    rfl

/-- C4 witness: the downgrade theorem's two parts applied to a concrete
provider failing once with a 429-classified error and succeeding on the
second call. -/
theorem generateResponse_premium_downgrade_witness :
    (loopGo (fun n _ => if n = 1 then Except.error ⟨some "429 quota exceeded"⟩
          else Except.ok ⟨some "hi", []⟩) [] "sys" [] 3 0 "gemini-3-pro-preview" 8192 1000
        = (⟨mkRequest "gemini-3-pro-preview" 8192 [] "sys" [] ::
              (loopGo (fun n _ => if n = 1 then Except.error ⟨some "429 quota exceeded"⟩
                else Except.ok ⟨some "hi", []⟩) [] "sys" [] 2 1
                "gemini-2.5-flash" 0 1000).1.calls,
            (loopGo (fun n _ => if n = 1 then Except.error ⟨some "429 quota exceeded"⟩
              else Except.ok ⟨some "hi", []⟩) [] "sys" [] 2 1
              "gemini-2.5-flash" 0 1000).1.waits,
            (loopGo (fun n _ => if n = 1 then Except.error ⟨some "429 quota exceeded"⟩
              else Except.ok ⟨some "hi", []⟩) [] "sys" [] 2 1
              "gemini-2.5-flash" 0 1000).1.downgrades + 1⟩,
           (loopGo (fun n _ => if n = 1 then Except.error ⟨some "429 quota exceeded"⟩
             else Except.ok ⟨some "hi", []⟩) [] "sys" [] 2 1
             "gemini-2.5-flash" 0 1000).2))
    ∧ (generateResponse (some "k") [] Subject.MATH ThinkingLevel.deep false
          (fun n _ => if n = 1 then Except.error ⟨some "429 quota exceeded"⟩
            else Except.ok ⟨some "hi", []⟩)
        = (⟨[initialRequest [] Subject.MATH ThinkingLevel.deep false,
              mkRequest "gemini-2.5-flash" 0 (mapMessagesToContent [])
                (SYSTEM_INSTRUCTIONS Subject.MATH) (buildTools false)], [], 1⟩,
           Outcome.done (normalizeResponse ⟨some "hi", []⟩))) :=
  ⟨generateResponse_premium_downgrade.1
      (fun n _ => if n = 1 then Except.error ⟨some "429 quota exceeded"⟩
        else Except.ok ⟨some "hi", []⟩) [] "sys" [] 2 0 8192 1000
      ⟨some "429 quota exceeded"⟩ rfl (by decide),
    generateResponse_premium_downgrade.2 "k" [] Subject.MATH false
      (fun n _ => if n = 1 then Except.error ⟨some "429 quota exceeded"⟩
        else Except.ok ⟨some "hi", []⟩)
      ⟨some "429 quota exceeded"⟩ ⟨some "hi", []⟩ rfl rfl (by decide)
      (fun n req hn => by
        have hne : n ≠ 1 := by omega
        simp [hne])⟩

/-- C6: for every valid input, the first request issued carries exactly the
table's model/budget pair — none ↦ fast with thinking config omitted,
moderate ↦ fast with budget 2048, deep ↦ premium with budget 8192 — and the
tools field is the web-search descriptor when `useSearch` is true and
omitted entirely (not an empty list) otherwise. -/
theorem generateResponse_request_translation (key : String) (history : List Message)
    (currentSubject : Subject) (thinkingLevel : ThinkingLevel) (useSearch : Bool)
    (provider : Provider) (hk : key.isEmpty = false) :
    (generateResponse (some key) history currentSubject thinkingLevel useSearch
        provider).1.calls.head?
      = some (initialRequest history currentSubject thinkingLevel useSearch)
    ∧ (thinkingLevel = ThinkingLevel.none →
        (initialRequest history currentSubject thinkingLevel useSearch).model
            = "gemini-2.5-flash"
        ∧ (initialRequest history currentSubject thinkingLevel useSearch).thinkingConfig
            = Option.none)
    ∧ (thinkingLevel = ThinkingLevel.moderate →
        (initialRequest history currentSubject thinkingLevel useSearch).model
            = "gemini-2.5-flash"
        ∧ (initialRequest history currentSubject thinkingLevel useSearch).thinkingConfig
            = some 2048)
    ∧ (thinkingLevel = ThinkingLevel.deep →
        (initialRequest history currentSubject thinkingLevel useSearch).model
            = "gemini-3-pro-preview"
        ∧ (initialRequest history currentSubject thinkingLevel useSearch).thinkingConfig
            = some 8192)
    ∧ (initialRequest history currentSubject thinkingLevel useSearch).tools
        = (if useSearch then some [Tool.googleSearch] else Option.none) := by
  have hk' : ¬ (((some key : Option String).getD "").isEmpty = true) := by
    simp [hk]
  refine ⟨?_, ?_, ?_, ?_, ?_⟩
  · simp only [generateResponse, if_neg hk']
    exact loopGo_first_call provider (mapMessagesToContent history)
      (SYSTEM_INSTRUCTIONS currentSubject) (buildTools useSearch) 2 0
      (initialModelBudget thinkingLevel).1 (initialModelBudget thinkingLevel).2 1000
  · intro h; subst h; exact ⟨rfl, rfl⟩
  · intro h; subst h; exact ⟨rfl, rfl⟩
  · intro h; subst h; exact ⟨rfl, rfl⟩
  · cases useSearch <;> rfl

/-- C6 witness: the request-translation theorem applied to a concrete
input. -/
theorem generateResponse_request_translation_witness :
    (generateResponse (some "k") [] Subject.PHYSICS ThinkingLevel.moderate true
        (fun _ _ => Except.ok ⟨some "hi", []⟩)).1.calls.head?
      = some (initialRequest [] Subject.PHYSICS ThinkingLevel.moderate true)
    ∧ (ThinkingLevel.moderate = ThinkingLevel.none →
        (initialRequest [] Subject.PHYSICS ThinkingLevel.moderate true).model
            = "gemini-2.5-flash"
        ∧ (initialRequest [] Subject.PHYSICS ThinkingLevel.moderate true).thinkingConfig
            = Option.none)
    ∧ (ThinkingLevel.moderate = ThinkingLevel.moderate →
        (initialRequest [] Subject.PHYSICS ThinkingLevel.moderate true).model
            = "gemini-2.5-flash"
        ∧ (initialRequest [] Subject.PHYSICS ThinkingLevel.moderate true).thinkingConfig
            = some 2048)
    ∧ (ThinkingLevel.moderate = ThinkingLevel.deep →
        (initialRequest [] Subject.PHYSICS ThinkingLevel.moderate true).model
            = "gemini-3-pro-preview"
        ∧ (initialRequest [] Subject.PHYSICS ThinkingLevel.moderate true).thinkingConfig
            = some 8192)
    ∧ (initialRequest [] Subject.PHYSICS ThinkingLevel.moderate true).tools
        = (if true then some [Tool.googleSearch] else Option.none) :=
  generateResponse_request_translation "k" [] Subject.PHYSICS ThinkingLevel.moderate true
    (fun _ _ => Except.ok ⟨some "hi", []⟩) rfl

/-- C7 counterexample: with an empty history (and a configured key),
`generateResponse` does not fail with any invalid-input failure — it issues
a provider request (one call is recorded) and completes normally. -/
theorem generateResponse_empty_history_counterexample :
    (generateResponse (some "k") [] Subject.MATH ThinkingLevel.none false
        (fun _ _ => Except.ok ⟨some "hi", []⟩)).1.calls.length = 1
    ∧ (generateResponse (some "k") [] Subject.MATH ThinkingLevel.none false
        (fun _ _ => Except.ok ⟨some "hi", []⟩)).2 = Outcome.done "hi" :=
  ⟨rfl, rfl⟩

/-- C7 amended: the code performs no input validation: an empty history
translates to an empty contents list, a message with zero parts translates
to a content with zero parts, and in both cases a provider request is still
issued (at least one call is recorded) — there is no invalid-input failure
and no crash. -/
theorem generateResponse_no_input_validation (key : String)
    (currentSubject : Subject) (thinkingLevel : ThinkingLevel) (useSearch : Bool)
    (provider : Provider) (role : Role) (ts : Nat) (ie : Option Bool)
    (hk : key.isEmpty = false) :
    mapMessagesToContent [] = []
    ∧ mapMessagesToContent [⟨role, [], ts, ie⟩] = [⟨role, []⟩]
    ∧ 1 ≤ (generateResponse (some key) [] currentSubject thinkingLevel useSearch
        provider).1.calls.length
    ∧ 1 ≤ (generateResponse (some key) [⟨role, [], ts, ie⟩] currentSubject thinkingLevel
        useSearch provider).1.calls.length := by
  have hk' : ¬ (((some key : Option String).getD "").isEmpty = true) := by
    simp [hk]
  refine ⟨rfl, rfl, ?_, ?_⟩
  · simp only [generateResponse, if_neg hk']
    exact loopGo_calls_pos provider (mapMessagesToContent [])
      (SYSTEM_INSTRUCTIONS currentSubject) (buildTools useSearch) 2 0
      (initialModelBudget thinkingLevel).1 (initialModelBudget thinkingLevel).2 1000
  · simp only [generateResponse, if_neg hk']
    exact loopGo_calls_pos provider (mapMessagesToContent [⟨role, [], ts, ie⟩])
      (SYSTEM_INSTRUCTIONS currentSubject) (buildTools useSearch) 2 0
      (initialModelBudget thinkingLevel).1 (initialModelBudget thinkingLevel).2 1000

/-- C7 witness: the no-validation theorem applied at a concrete input. -/
theorem generateResponse_no_input_validation_witness :
    mapMessagesToContent [] = []
    ∧ mapMessagesToContent [⟨Role.user, [], 7, Option.none⟩] = [⟨Role.user, []⟩]
    ∧ 1 ≤ (generateResponse (some "k") [] Subject.ENGLISH ThinkingLevel.none false
        (fun _ _ => Except.ok ⟨some "hi", []⟩)).1.calls.length
    ∧ 1 ≤ (generateResponse (some "k") [⟨Role.user, [], 7, Option.none⟩] Subject.ENGLISH
        ThinkingLevel.none false
        (fun _ _ => Except.ok ⟨some "hi", []⟩)).1.calls.length :=
  generateResponse_no_input_validation "k" Subject.ENGLISH ThinkingLevel.none false
    (fun _ _ => Except.ok ⟨some "hi", []⟩) Role.user 7 Option.none rfl

/-- C9 counterexample: the code de-duplicates by the rendered markdown line,
not by the (title, uri) pair: the two distinct pairs ("a](b", "c") and
("a", "b](c") render to the same line, so the output differs from the
pair-level de-duplication stated by the claim. -/
theorem normalizeResponse_pair_dedup_counterexample :
    (("a](b", "c") ≠ (("a", "b](c") : String × String))
    ∧ renderSource ("a](b", "c") = renderSource ("a", "b](c")
    ∧ normalizeResponse
        ⟨some "T", [⟨some ⟨some [⟨some ⟨"a](b", "c"⟩⟩, ⟨some ⟨"a", "b](c"⟩⟩]⟩⟩]⟩
      ≠ specNormalizedOutput
        ⟨some "T", [⟨some ⟨some [⟨some ⟨"a](b", "c"⟩⟩, ⟨some ⟨"a", "b](c"⟩⟩]⟩⟩]⟩ :=
  ⟨by decide, rfl, by decide⟩

/-- C9 amended: the Sources section is de-duplicated by exact string
equality of the rendered markdown line `- [title](uri)`, keeping first
occurrences in first-seen order; whenever rendering is injective on the
(title, uri) pairs present (in particular when no `](` collision occurs)
this coincides with de-duplication by exact pair equality: the output
equals the spec's pair-level rendering, each distinct pair appears exactly
once (no duplicates, completeness) and first-seen order is preserved
(sublist of the original pair order). -/
theorem normalizeResponse_sources_dedup (response : GenResponse)
    (chunks : List GroundingChunk)
    (hc : groundingChunksOf response = some chunks)
    (hinj : ∀ p ∈ webPairs chunks, ∀ q ∈ webPairs chunks,
      renderSource p = renderSource q → p = q) :
    normalizeResponse response = specNormalizedOutput response
    ∧ (jsSetDedup (webPairs chunks)).Nodup
    ∧ List.Sublist (jsSetDedup (webPairs chunks)) (webPairs chunks)
    ∧ ∀ p ∈ webPairs chunks, p ∈ jsSetDedup (webPairs chunks) := by
  have hmap : jsSetDedup ((webPairs chunks).map renderSource)
      = (jsSetDedup (webPairs chunks)).map renderSource :=
    jsSetDedup_map renderSource (webPairs chunks) hinj
  refine ⟨?_, jsSetDedupAux_nodup (webPairs chunks) [],
    jsSetDedupAux_sublist (webPairs chunks) [],
    fun p hp => jsSetDedupAux_mem (webPairs chunks) [] p hp (by simp)⟩
  cases chunks with
  | nil =>
    simp [normalizeResponse, specNormalizedOutput, hc, webPairs]
  | cons c0 cs =>
    simp only [normalizeResponse, specNormalizedOutput, hc,
      sources_eq (c0 :: cs), hmap]
    by_cases hwp : webPairs (c0 :: cs) = []
    · simp [hwp]
      intro h
      simp [jsSetDedup, jsSetDedupAux] at h
    · have h1 : jsSetDedup (webPairs (c0 :: cs)) ≠ [] :=
        jsSetDedup_ne_nil (webPairs (c0 :: cs)) hwp
      have h2 : 0 < ((jsSetDedup (webPairs (c0 :: cs))).map renderSource).length := by
        simpa [List.length_pos] using h1
      have h3 : 0 < (webPairs (c0 :: cs)).length := by
        simpa [List.length_pos] using hwp
      simp [h2, h3]
      exact fun h => absurd h h1

/-- C9 witness: the amended de-duplication theorem applied to a concrete
response whose grounding chunks carry a duplicated (title, uri) pair and a
chunk without a web reference. -/
theorem normalizeResponse_sources_dedup_witness :
    normalizeResponse
        ⟨some "T", [⟨some ⟨some [⟨some ⟨"t1", "u1"⟩⟩, ⟨Option.none⟩,
          ⟨some ⟨"t1", "u1"⟩⟩, ⟨some ⟨"t2", "u2"⟩⟩]⟩⟩]⟩
      = specNormalizedOutput
        ⟨some "T", [⟨some ⟨some [⟨some ⟨"t1", "u1"⟩⟩, ⟨Option.none⟩,
          ⟨some ⟨"t1", "u1"⟩⟩, ⟨some ⟨"t2", "u2"⟩⟩]⟩⟩]⟩
    ∧ (jsSetDedup (webPairs [⟨some ⟨"t1", "u1"⟩⟩, ⟨Option.none⟩,
        ⟨some ⟨"t1", "u1"⟩⟩, ⟨some ⟨"t2", "u2"⟩⟩])).Nodup
    ∧ List.Sublist
        (jsSetDedup (webPairs [⟨some ⟨"t1", "u1"⟩⟩, ⟨Option.none⟩,
          ⟨some ⟨"t1", "u1"⟩⟩, ⟨some ⟨"t2", "u2"⟩⟩]))
        (webPairs [⟨some ⟨"t1", "u1"⟩⟩, ⟨Option.none⟩,
          ⟨some ⟨"t1", "u1"⟩⟩, ⟨some ⟨"t2", "u2"⟩⟩])
    ∧ ∀ p ∈ webPairs [⟨some ⟨"t1", "u1"⟩⟩, ⟨Option.none⟩,
        ⟨some ⟨"t1", "u1"⟩⟩, ⟨some ⟨"t2", "u2"⟩⟩],
        p ∈ jsSetDedup (webPairs [⟨some ⟨"t1", "u1"⟩⟩, ⟨Option.none⟩,
          ⟨some ⟨"t1", "u1"⟩⟩, ⟨some ⟨"t2", "u2"⟩⟩]) :=
  normalizeResponse_sources_dedup
    ⟨some "T", [⟨some ⟨some [⟨some ⟨"t1", "u1"⟩⟩, ⟨Option.none⟩,
      ⟨some ⟨"t1", "u1"⟩⟩, ⟨some ⟨"t2", "u2"⟩⟩]⟩⟩]⟩
    [⟨some ⟨"t1", "u1"⟩⟩, ⟨Option.none⟩, ⟨some ⟨"t1", "u1"⟩⟩, ⟨some ⟨"t2", "u2"⟩⟩]
    rfl (by decide)
